import Mathlib

/-!
Verification of the Sapora LAN collaboration server (shallow embedding).

Each definition below is translated from the Python source under
`Sapora/`:
wire codec from `shared/helpers.py`, connection registry from
`server/connection_manager.py`, chat routing from `server/tcp_handler.py`,
audio mix tick from `server/udp_audio_server.py`, and the file-transfer
handler from `server/file_server.py`.  Bytes are modelled as `Nat` values
(< 256 where relevant), sockets as `Nat` handles, and Python dicts as
association lists in insertion order.
-/

namespace Sapora

/-! ## Wire codec (`shared/helpers.py`, `shared/constants.py`) -/

/-- `PROTOCOL_VERSION` from `shared/constants.py`. -/
def PROTOCOL_VERSION : Nat := 1

/-- `HEADER_SIZE` from `shared/constants.py`. -/
def HEADER_SIZE : Nat := 10

/-- `MAX_MESSAGE_SIZE` from `shared/constants.py` (1 MiB). -/
def MAX_MESSAGE_SIZE : Nat := 1048576

/-- Big-endian 4-byte encoding of a `u32`, as produced by
`struct.pack` with format `!I`. -/
def be4 (n : Nat) : List Nat :=
  [n / 16777216 % 256, n / 65536 % 256, n / 256 % 256, n % 256]

/-- Big-endian 2-byte encoding of a `u16` (`struct.pack` format `!H`). -/
def be2 (n : Nat) : List Nat :=
  [n / 256 % 256, n % 256]

/-- The 10-byte header plus payload built by `pack_message`
(`shared/helpers.py` lines 10-32) when the size check passes:
`struct.pack` with format `!BBIHH` of
`(PROTOCOL_VERSION, msg_type, payload_length, 0, 0)`, then the payload. -/
def packBytes (msg_type : Nat) (payload : List Nat) : List Nat :=
  [PROTOCOL_VERSION, msg_type] ++ be4 payload.length ++ be2 0 ++ be2 0 ++ payload

/-- `pack_message` (`shared/helpers.py` lines 10-32): rejects payloads
larger than `MAX_MESSAGE_SIZE`, otherwise emits header plus payload with
sequence number and reserved field both zero. -/
def pack_message (msg_type : Nat) (payload : List Nat) :
    Except String (List Nat) :=
  if payload.length > MAX_MESSAGE_SIZE then
    .error "Payload size exceeds maximum"
  else
    .ok (packBytes msg_type payload)

/-- `unpack_message` (`shared/helpers.py` lines 35-61): splits off the
10-byte header, decodes `!BBIHH`, checks the payload length and the
protocol version, and returns
`(version, msg_type, payload_length, sequence_number, payload)`. -/
def unpack_message (data : List Nat) :
    Except String (Nat × Nat × Nat × Nat × List Nat) :=
  match data with
  | v :: t :: l3 :: l2 :: l1 :: l0 :: s1 :: s0 :: _r1 :: _r0 :: payload =>
    let payload_length := ((l3 * 256 + l2) * 256 + l1) * 256 + l0
    let sequence_number := s1 * 256 + s0
    if payload.length ≠ payload_length then
      .error "Payload length mismatch"
    else if v ≠ PROTOCOL_VERSION then
      .error "Protocol version mismatch"
    else
      .ok (v, t, payload_length, sequence_number, payload)
  | _ => .error "Data too short"

/-! ## Connection registry (`server/connection_manager.py`) -/

/-- A UDP return address `(ip, port)`. -/
structure Addr where
  ip : String
  port : Nat
deriving DecidableEq, Repr

/-- One entry of `control_clients` (`connection_manager.py` lines 27-28):
remote address, asserted username, current room.  The `id` and the
`last_seen` wall-clock timestamp are not modelled. -/
structure ClientInfo where
  ip : String
  port : Nat
  username : String
  room : String
deriving DecidableEq, Repr

/-- One entry of `stream_clients` (`connection_manager.py` line 34):
optional video and audio return addresses of an IP. -/
structure StreamInfo where
  video : Option Addr
  audio : Option Addr
deriving DecidableEq, Repr

/-- The registry's two maps, as insertion-ordered association lists:
`control_clients` keyed by socket handle and `stream_clients` keyed by
source IP. -/
structure ManagerState where
  control : List (Nat × ClientInfo)
  streams : List (String × StreamInfo)
deriving DecidableEq, Repr

/-- The values `remove_client` returns plus the broadcasts it triggers
(`connection_manager.py` lines 69-103): `broadcastGlobal` records whether
`broadcast_user_list` ran, `broadcastRoom` which room (if any) got a
room user-list broadcast. -/
structure RemoveResult where
  username : String
  addr : String × Nat
  broadcastGlobal : Bool
  broadcastRoom : Option String
deriving DecidableEq, Repr

/-- `remove_client` (`connection_manager.py` lines 69-103).  When the
socket is absent the defaults `"Unknown"` and `("0.0.0.0", 0)` stand;
the matching `stream_clients` entry (keyed by the member's IP) is
dropped, and user-list broadcasts fire only for a known username. -/
def remove_client (st : ManagerState) (sock : Nat) :
    ManagerState × RemoveResult :=
  match st.control.find? (fun p => p.1 = sock) with
  | none =>
    let streams' :=
      if (st.streams.find? (fun q => q.1 = "0.0.0.0")).isSome then
        st.streams.filter (fun q => q.1 ≠ "0.0.0.0")
      else st.streams
    ({ st with streams := streams' },
     ⟨"Unknown", ("0.0.0.0", 0), false, none⟩)
  | some (_, info) =>
    let control' := st.control.filter (fun p => p.1 ≠ sock)
    let streams' :=
      if (st.streams.find? (fun q => q.1 = info.ip)).isSome then
        st.streams.filter (fun q => q.1 ≠ info.ip)
      else st.streams
    let known := info.username ≠ "Unknown"
    (⟨control', streams'⟩,
     ⟨info.username, (info.ip, info.port), known,
      if known then some info.room else none⟩)

/-- The username promotion shared by `update_client_status` and
`update_client_status_by_ip` (`connection_manager.py` lines 113-115 and
138-139): a truthy username replaces the stored `"Unknown"` placeholder
only.  `none`/`""` model Python falsy values. -/
def promoteUsername (info : ClientInfo) (username? : Option String) :
    ClientInfo :=
  match username? with
  | some u =>
    if u ≠ "" ∧ info.username = "Unknown" then
      { info with username := u }
    else info
  | none => info

/-- The room update of `update_client_status` (`connection_manager.py`
lines 116-117): a truthy room value always overwrites the stored
room. -/
def setRoom (info : ClientInfo) (room? : Option String) : ClientInfo :=
  match room? with
  | some r => if r ≠ "" then { info with room := r } else info
  | none => info

/-- The field updates of `update_client_status`
(`connection_manager.py` lines 110-118). -/
def updInfo (info : ClientInfo) (username? room? : Option String) :
    ClientInfo :=
  setRoom (promoteUsername info username?) room?

/-- `update_client_status` (`connection_manager.py` lines 105-130),
restricted to its effect on the control map: the entry for `sock` (if
present) is rewritten through `updInfo`. -/
def update_client_status (control : List (Nat × ClientInfo)) (sock : Nat)
    (username? room? : Option String) : List (Nat × ClientInfo) :=
  control.map (fun p => if p.1 = sock then (p.1, updInfo p.2 username? room?) else p)

/-- The room update of `update_client_status_by_ip`
(`connection_manager.py` lines 140-144): the room is set only when it
is not a downgrade from a non-default room (`room != 'default' or not
current_room or current_room == 'default'`). -/
def setRoomByIp (info : ClientInfo) (room? : Option String) : ClientInfo :=
  match room? with
  | some r =>
    if r ≠ "" then
      if r ≠ "default" ∨ info.room = "" ∨ info.room = "default" then
        { info with room := r }
      else info
    else info
  | none => info

/-- The field updates of `update_client_status_by_ip`
(`connection_manager.py` lines 136-144). -/
def updInfoByIp (info : ClientInfo) (username? room? : Option String) :
    ClientInfo :=
  setRoomByIp (promoteUsername info username?) room?

/-- `update_client_status_by_ip` (`connection_manager.py` lines
132-146): the loop updates the first entry whose IP matches and returns
immediately. -/
def update_client_status_by_ip :
    List (Nat × ClientInfo) → String → Option String → Option String →
    List (Nat × ClientInfo)
  | [], _, _, _ => []
  | p :: rest, ip, username?, room? =>
    if p.2.ip = ip then (p.1, updInfoByIp p.2 username? room?) :: rest
    else p :: update_client_status_by_ip rest ip username? room?

/-- `get_client_username_by_ip` (`connection_manager.py` lines 153-159):
first member at the IP whose username is not `"Unknown"`, else the IP
string itself. -/
def get_client_username_by_ip (clients : List ClientInfo) (ip : String) :
    String :=
  match clients.find? (fun i => i.ip = ip ∧ i.username ≠ "Unknown") with
  | some i => i.username
  | none => ip

/-! ## Rooms and chat routing (`server/tcp_handler.py`) -/

/-- Python's `str.lower()` for the ASCII usernames concerned:
character-wise lowering. -/
def pyLower (s : String) : String :=
  String.mk (s.data.map Char.toLower)

/-- Python's `str.strip()`: drop leading and trailing whitespace. -/
def pyStrip (s : String) : String :=
  String.mk
    (((s.data.dropWhile Char.isWhitespace).reverse.dropWhile
        Char.isWhitespace).reverse)

/-- One entry of `server.rooms` (`tcp_handler.py` line 94): the ordered
socket list `clients` and the `participants` dict mapping the asserted
username (original casing) to a socket. -/
structure Room where
  clients : List Nat
  participants : List (String × Nat)
deriving DecidableEq, Repr

/-- The rooms map plus the `client_rooms` back map of the server. -/
structure ServerRooms where
  rooms : List (String × Room)
  clientRooms : List (Nat × String)
deriving DecidableEq, Repr

/-- Python dict update `d[k] = v` on an association list: rewrite the
existing key in place, else append. -/
def assocSet (l : List (α × β)) [DecidableEq α] (k : α) (v : β) :
    List (α × β) :=
  if l.any (fun p => p.1 = k) then
    l.map (fun p => if p.1 = k then (k, v) else p)
  else l ++ [(k, v)]

/-- Python dict lookup on an association list (last binding wins, as
after `assocSet` updates; lists built only by `assocSet` have unique
keys, so the first match is the binding). -/
def assocGet (l : List (α × β)) [DecidableEq α] (k : α) : Option β :=
  (l.find? (fun p => p.1 = k)).map (fun p => p.2)

/-- The room-joining steps of `_handle_register` (`tcp_handler.py` lines
92-99): `rooms.setdefault(meeting_id, …)`, append the socket to
`clients` if absent, bind `participants[username] = sock` (original
casing, no case-insensitive duplicate check), and record
`client_rooms[sock] = meeting_id`. -/
def registerInRooms (st : ServerRooms) (meeting username : String)
    (sock : Nat) : ServerRooms :=
  let room := (assocGet st.rooms meeting).getD ⟨[], []⟩
  let clients' := if sock ∈ room.clients then room.clients
                  else room.clients ++ [sock]
  let participants' := assocSet room.participants username sock
  { rooms := assocSet st.rooms meeting ⟨clients', participants'⟩,
    clientRooms := assocSet st.clientRooms sock meeting }

/-- The server state reached from an empty rooms map by registering
username `"Alice"` on socket 1 and then `"alice"` on socket 2, both
into room `"team"`. -/
def twoCaseVariantState : ServerRooms :=
  registerInRooms (registerInRooms ⟨[], []⟩ "team" "Alice" 1) "team" "alice" 2

/-- The spec's room invariant: no two participants of a room have
usernames equal under case-insensitive comparison. -/
def ciUnique (r : Room) : Prop :=
  r.participants.Pairwise (fun p q => pyLower p.1 ≠ pyLower q.1)

instance (r : Room) : Decidable (ciUnique r) := by
  unfold ciUnique; infer_instance

/-- A packet `_handle_chat`/`_send_to_targets` sends back to the sender:
the JSON `type` field plus the sent/failed counts quoted in a
confirmation's text (0 for the unknown-target error packet). -/
structure SenderPkt where
  ptype : String
  sent : Nat
  failed : Nat
deriving DecidableEq, Repr

/-- The routing outcome of `_handle_chat`: the sockets the chat packet
is sent to and the packets returned to the sender. -/
structure ChatResult where
  targets : List Nat
  senderPackets : List SenderPkt
deriving DecidableEq, Repr

/-- The case-insensitive participant lookup of `_handle_chat`
(`tcp_handler.py` lines 172-176): the dict comprehension keyed by
`str(name).strip().lower()` keeps the last binding for each folded key,
so search the reversed list. -/
def ciLookup (participants : List (String × Nat)) (key : String) :
    Option (String × Nat) :=
  participants.reverse.find? (fun p => pyLower (pyStrip p.1) = key)

/-- `_send_to_targets` (`tcp_handler.py` lines 214-263): attempt a send
to every target, count successes and failures, and return one
confirmation packet to the sender, typed `delivery_confirm` when
`sent_count > 0 or failed_count == 0` and `error` otherwise. -/
def sendToTargets (targets : List Nat) (sendOk : Nat → Bool) : SenderPkt :=
  let sent := targets.countP sendOk
  let failed := targets.length - sent
  if sent > 0 ∨ failed = 0 then ⟨"delivery_confirm", sent, failed⟩
  else ⟨"error", sent, failed⟩

/-- The routing rules of `_handle_chat` (`tcp_handler.py` lines
163-206) for a found room: `target_username = obj.get('target','all')`;
a truthy target whose `.lower()` is neither `all` nor `everyone` is a
unicast looked up case-insensitively (miss: an `error` packet to the
sender only, no confirmation); anything else broadcasts to every room
socket except the sender; `_send_to_targets` then reports counts.
`sendOk` models which `sendall` calls succeed. -/
def handleChat (room : Room) (senderSock : Nat) (target : Option String)
    (sendOk : Nat → Bool) : ChatResult :=
  let targetUsername := target.getD "all"
  if targetUsername ≠ "" ∧
      pyLower targetUsername ≠ "all" ∧ pyLower targetUsername ≠ "everyone" then
    match ciLookup room.participants (pyLower (pyStrip targetUsername)) with
    | some (_, tsock) =>
      ⟨[tsock], [sendToTargets [tsock] sendOk]⟩
    | none =>
      ⟨[], [⟨"error", 0, 0⟩]⟩
  else
    let targets := room.clients.filter (fun s => s ≠ senderSock)
    ⟨targets, [sendToTargets targets sendOk]⟩

/-- The unknown-target miss condition of `_handle_chat`. -/
def chatMiss (room : Room) (target : Option String) : Prop :=
  let targetUsername := target.getD "all"
  targetUsername ≠ "" ∧
    pyLower targetUsername ≠ "all" ∧ pyLower targetUsername ≠ "everyone" ∧
    ciLookup room.participants (pyLower (pyStrip targetUsername)) = none

instance (room : Room) (target : Option String) :
    Decidable (chatMiss room target) := by
  unfold chatMiss; infer_instance

/-! ## Audio mix tick (`server/udp_audio_server.py`, `server/utils.py`) -/

/-- A raw PCM chunk as received in a `STREAM_AUDIO` payload. -/
abbrev Chunk := List Nat

/-- `AUDIO_CHUNK * AUDIO_CHANNELS * AUDIO_FORMAT_PCM` from
`shared/constants.py`: the canonical chunk size in bytes (2048). -/
def bytesPerChunk : Nat := 1024 * 1 * 2

/-- Step 1 of `_audio_mixer`'s tick (`udp_audio_server.py` lines
122-128): pop the oldest chunk of every source with a non-empty jitter
buffer, paired with its source address. -/
def popChunks (buffers : List (Addr × List Chunk)) : List (Addr × Chunk) :=
  buffers.filterMap (fun p =>
    match p.2 with
    | [] => none
    | c :: _ => some (p.1, c))

/-- The per-listener source selection of `_audio_mixer`
(`udp_audio_server.py` lines 154-165): keep a popped chunk unless its
full source address equals the target address (`tuple(addr) ==
target_key`), and only when the source's room equals the target's room
(`get_room_by_ip` on each side). -/
def selectedSources (roomOf : String → String)
    (popped : List (Addr × Chunk)) (target : Addr) : List (Addr × Chunk) :=
  popped.filter (fun p => p.1 ≠ target ∧ roomOf p.1.ip = roomOf target.ip)

/-- The size filter of `mix_audio_chunks` (`server/utils.py` lines
150-157): only chunks of exactly `bytesPerChunk` bytes enter the mix;
with no valid chunk the function returns `None` and nothing is sent. -/
def mixInput (sources : List Chunk) : List Chunk :=
  sources.filter (fun c => c.length = bytesPerChunk)

/-- One full mix tick (`udp_audio_server.py` lines 140-189): for each
registered audio listener, select same-room non-self sources, skip the
listener when nothing remains (before or after the size filter), else
send exactly one mixed packet.  The result pairs each listener actually
sent to with the list of chunks mixed into its packet. -/
def tickSends (roomOf : String → String) (buffers : List (Addr × List Chunk))
    (listeners : List Addr) : List (Addr × List Chunk) :=
  let popped := popChunks buffers
  listeners.filterMap (fun t =>
    let srcs := (selectedSources roomOf popped t).map (fun p => p.2)
    if srcs = [] then none
    else
      let mi := mixInput srcs
      if mi = [] then none else some (t, mi))

/-- A concrete audio chunk of the canonical size (2048 bytes of value
7), used to exercise the mix tick. -/
def sampleChunk : Chunk := List.replicate 2048 7

/-! ## File transfer server (`server/file_server.py`) -/

/-- Resolution of `(storage_dir / filename).resolve()` over paths
modelled as component lists: fold the filename's components onto the
absolute storage root, with `..` dropping the last component, and `.`
or an empty component ignored. -/
def resolvePath (root : List String) : List String → List String
  | [] => root
  | c :: rest =>
    if c = ".." then resolvePath root.dropLast rest
    else if c = "." ∨ c = "" then resolvePath root rest
    else resolvePath (root ++ [c]) rest

/-- Rendering of an absolute path as the string `str(path)` compares. -/
def pathStr (p : List String) : String :=
  p.foldl (fun acc c => acc ++ "/" ++ c) ""

/-- Python's `str.startswith`, character-wise. -/
def pyStartsWith (a b : String) : Bool := a.data.isPrefixOf b.data

/-- The directory-traversal guard of `_handle_upload_request` (lines
168-170) and `_handle_download_request` (lines 323-325):
`str(file_path).startswith(str(storage_dir.resolve()))` on the resolved
path.  `true` means the transfer proceeds to touch the filesystem. -/
def traversalGuardPasses (root fname : List String) : Bool :=
  pyStartsWith (pathStr root) (pathStr (resolvePath root fname))

/-- What the spec's containment requirement asks of the resolved path:
it stays under the storage root (the root's components are a prefix of
the resolved components). -/
def underRoot (root fname : List String) : Prop :=
  root <+: resolvePath root fname

/-- Outcome of the upload completion steps: which ack is sent, whether
the stored file survives, and whether `_notify_file_availability`
(the `file_announce` notification) runs. -/
structure UploadFinish where
  ackSuccess : Bool
  fileKept : Bool
  announced : Bool
deriving DecidableEq, Repr

/-- The completion steps of `_handle_upload_request` (`file_server.py`
lines 193-214) after the chunk loop, parameterised by the digest
function: a received-size mismatch raises (partial file deleted, failure
ack); a truthy declared checksum is compared against the MD5 of the
bytes on disk — mismatch deletes the file, acks failure, and skips the
notification; otherwise the ack is success and the notification runs. -/
def finishUpload (md5 : List Nat → String) (filesize : Nat)
    (data : List Nat) (declared : String) : UploadFinish :=
  if data.length ≠ filesize then ⟨false, false, false⟩
  else if declared ≠ "" then
    if md5 data ≠ declared then ⟨false, false, false⟩
    else ⟨true, true, true⟩
  else ⟨true, true, true⟩

/-- The `file_announce` notification dict built by
`_notify_file_availability` (`file_server.py` lines 236-243); the
`sender` field comes from `get_client_username_by_ip`. -/
structure FileAnnounce where
  ftype : String
  filename : String
  sender : String
  size : Nat
  target : String
deriving DecidableEq, Repr

/-- `_notify_file_availability` (`file_server.py` lines 229-243):
builds the announcement with `sender = get_client_username_by_ip(ip)`
and `target = target_users[0] if len(target_users) == 1 else 'all'`. -/
def mkFileAnnounce (clients : List ClientInfo) (ip filename : String)
    (filesize : Nat) (targetUsers : List String) : FileAnnounce :=
  { ftype := "file_announce",
    filename := filename,
    sender := get_client_username_by_ip clients ip,
    size := filesize,
    target := if targetUsers.length = 1 then targetUsers.headD "all" else "all" }

/-! ## Theorems -/

/-- C8: for every message type byte and every payload of at most 1 MiB,
`unpack_message (pack_message type payload)` returns
`(PROTOCOL_VERSION, type, payload.length, 0, payload)`, and
`pack_message` raises an error for payloads larger than 1 MiB. -/
theorem pack_unpack_roundtrip (msg_type : Nat) (payload : List Nat)
    (ht : msg_type < 256) (hle : payload.length ≤ 1048576) :
    (pack_message msg_type payload = Except.ok (packBytes msg_type payload) ∧
      unpack_message (packBytes msg_type payload) =
        Except.ok (PROTOCOL_VERSION, msg_type, payload.length, 0, payload)) ∧
    ∀ big : List Nat, big.length > 1048576 →
      pack_message msg_type big = Except.error "Payload size exceeds maximum" := by
  refine ⟨⟨?_, ?_⟩, ?_⟩
  · unfold pack_message MAX_MESSAGE_SIZE
    rw [if_neg (by omega)]
  · have hdec :
        ((payload.length / 16777216 % 256 * 256 + payload.length / 65536 % 256) * 256 +
            payload.length / 256 % 256) * 256 + payload.length % 256 =
          payload.length := by omega
    simp only [packBytes, be4, be2, PROTOCOL_VERSION, List.cons_append,
      List.nil_append, unpack_message, hdec]
    simp
  · intro big hbig
    unfold pack_message MAX_MESSAGE_SIZE
    rw [if_pos (by omega)]

/-- Witness for C8 at message type `0x10` and payload `[7]`. -/
theorem pack_unpack_roundtrip_witness :
    unpack_message (packBytes 16 [7]) =
      Except.ok (PROTOCOL_VERSION, 16, 1, 0, [7]) :=
  (pack_unpack_roundtrip 16 [7] (by decide) (by decide)).1.2

/-- C10: `get_client_username_by_ip` returns a stored username only when
that member is at the queried IP with a username other than `"Unknown"`;
when no member at the IP has a known username it returns the IP string
itself; and the `sender` field of a `file_announce` notification is
exactly this value, hence possibly a raw IP address. -/
theorem username_by_ip_spec (clients : List ClientInfo)
    (ip filename : String) (filesize : Nat) (targetUsers : List String) :
    (get_client_username_by_ip clients ip ≠ ip →
      ∃ i ∈ clients, i.ip = ip ∧ i.username ≠ "Unknown" ∧
        get_client_username_by_ip clients ip = i.username) ∧
    ((∀ i ∈ clients, i.ip = ip → i.username = "Unknown") →
      get_client_username_by_ip clients ip = ip) ∧
    (mkFileAnnounce clients ip filename filesize targetUsers).sender =
      get_client_username_by_ip clients ip := by
  refine ⟨?_, ?_, rfl⟩
  · intro hne
    unfold get_client_username_by_ip at hne ⊢
    cases hfind : clients.find? (fun i => i.ip = ip ∧ i.username ≠ "Unknown") with
    | none => rw [hfind] at hne; exact absurd rfl hne
    | some i =>
      have hmem := List.mem_of_find?_eq_some hfind
      have hprop := List.find?_some hfind
      simp only [decide_eq_true_eq, Bool.and_eq_true, decide_not,
        Bool.not_eq_true', decide_eq_false_iff_not] at hprop
      exact ⟨i, hmem, hprop.1, hprop.2, rfl⟩
  · intro hall
    unfold get_client_username_by_ip
    have : clients.find? (fun i => i.ip = ip ∧ i.username ≠ "Unknown") = none := by
      rw [List.find?_eq_none]
      intro i hi
      simp only [decide_eq_true_eq, Bool.and_eq_true, decide_not,
        Bool.not_eq_true', decide_eq_false_iff_not, not_and]
      intro hip
      exact fun hu => hu (hall i hi hip)
    rw [this]

/-- Witness for C10: with no registered member, the announce sender is
the raw IP. -/
theorem username_by_ip_spec_witness :
    get_client_username_by_ip [] "10.0.0.9" = "10.0.0.9" :=
  (username_by_ip_spec [] "10.0.0.9" "f.txt" 3 ["all"]).2.1 (by simp)

/-- C9: `remove_client` on a socket absent from the registry changes
neither map, triggers no user-list broadcast, and returns
`("Unknown", ("0.0.0.0", 0))`; consequently removing the same socket
twice equals removing it once.  The hypothesis that no stream entry is
keyed by `"0.0.0.0"` holds in every reachable state, since stream keys
are source IPs of received datagrams. -/
theorem remove_client_absent_noop (st : ManagerState) (sock : Nat)
    (hz : st.streams.find? (fun q => q.1 = "0.0.0.0") = none) :
    (st.control.find? (fun p => p.1 = sock) = none →
      remove_client st sock =
        (st, ⟨"Unknown", ("0.0.0.0", 0), false, none⟩)) ∧
    (remove_client (remove_client st sock).1 sock).1 =
      (remove_client st sock).1 := by
  have habsent : ∀ s : ManagerState,
      s.streams.find? (fun q => q.1 = "0.0.0.0") = none →
      s.control.find? (fun p => p.1 = sock) = none →
      remove_client s sock = (s, ⟨"Unknown", ("0.0.0.0", 0), false, none⟩) := by
    intro s hs hc
    unfold remove_client
    rw [hc, hs]
    rfl
  refine ⟨habsent st hz, ?_⟩
  cases hfind : st.control.find? (fun p => p.1 = sock) with
  | none =>
    have h1 := habsent st hz hfind
    simp [h1]
  | some p =>
    obtain ⟨s, info⟩ := p
    have hstep : (remove_client st sock).1 =
        ⟨st.control.filter (fun p => p.1 ≠ sock),
          if (st.streams.find? (fun q => q.1 = info.ip)).isSome then
            st.streams.filter (fun q => q.1 ≠ info.ip)
          else st.streams⟩ := by
      unfold remove_client
      rw [hfind]
    rw [hstep]
    have hc1 : (st.control.filter (fun p => p.1 ≠ sock)).find?
        (fun p => p.1 = sock) = none := by
      rw [List.find?_eq_none]
      intro x hx
      have := (List.mem_filter.mp hx).2
      simp only [decide_eq_true_eq, decide_not, Bool.not_eq_true',
        decide_eq_false_iff_not] at this ⊢
      exact this
    have hs1 : (if (st.streams.find? (fun q => q.1 = info.ip)).isSome then
        st.streams.filter (fun q => q.1 ≠ info.ip)
        else st.streams).find? (fun q => q.1 = "0.0.0.0") = none := by
      split
      · rw [List.find?_eq_none]
        intro x hx
        have hxmem := (List.mem_filter.mp hx).1
        have := List.find?_eq_none.mp hz x hxmem
        exact this
      · exact hz
    rw [habsent _ hs1 hc1]

/-- Witness for C9 on the empty registry and socket 5. -/
theorem remove_client_absent_noop_witness :
    remove_client ⟨[], []⟩ 5 =
      (⟨[], []⟩, ⟨"Unknown", ("0.0.0.0", 0), false, none⟩) :=
  (remove_client_absent_noop ⟨[], []⟩ 5 rfl).1 rfl

/-- C7 counterexample: `update_client_status` (touch by socket) does
NOT ignore a room downgrade — supplying `room = "default"` to a member
whose stored room is `"team"` overwrites it with `"default"`. -/
theorem touch_room_downgrade_counterexample :
    update_client_status [(1, ⟨"10.0.0.1", 5, "Alice", "team"⟩)] 1
        none (some "default") =
      [(1, ⟨"10.0.0.1", 5, "Alice", "default"⟩)] ∧
    ("team" : String) ≠ "default" := by
  constructor
  · rfl
  · decide

/-- `promoteUsername` never changes the room field. -/
theorem promoteUsername_room (info : ClientInfo)
    (username? : Option String) :
    (promoteUsername info username?).room = info.room := by
  cases username? with
  | none => rfl
  | some u =>
    show (if u ≠ "" ∧ info.username = "Unknown" then
        ({ info with username := u } : ClientInfo)
      else info).room = info.room
    split <;> rfl

/-- `setRoomByIp` with a `"default"` downgrade keeps a non-empty stored
room. -/
theorem setRoomByIp_default_room (info : ClientInfo)
    (h : info.room ≠ "") :
    (setRoomByIp info (some "default")).room = info.room := by
  show (if ("default" : String) ≠ "" then
      if ("default" : String) ≠ "default" ∨ info.room = "" ∨
          info.room = "default" then
        ({ info with room := "default" } : ClientInfo)
      else info
    else info).room = info.room
  rw [if_pos (show ("default" : String) ≠ "" by decide)]
  by_cases hd : info.room = "default"
  · rw [if_pos (Or.inr (Or.inr hd))]
    exact hd.symm
  · rw [if_neg (by push_neg; exact ⟨by decide, h, hd⟩)]

/-- The room component of `updInfoByIp` is unchanged when a `"default"`
downgrade is supplied and the stored room is non-empty. -/
theorem updInfoByIp_default_room (info : ClientInfo)
    (username? : Option String) (h : info.room ≠ "") :
    (updInfoByIp info username? (some "default")).room = info.room := by
  unfold updInfoByIp
  rw [setRoomByIp_default_room _ (by rw [promoteUsername_room]; exact h)]
  exact promoteUsername_room info username?

/-- The room component of `updInfo` with a supplied `"default"` room is
always `"default"`. -/
theorem updInfo_default_room (info : ClientInfo)
    (username? : Option String) :
    (updInfo info username? (some "default")).room = "default" := by
  unfold updInfo
  show (if ("default" : String) ≠ "" then
      ({ promoteUsername info username? with room := "default" } : ClientInfo)
    else promoteUsername info username?).room = "default"
  rw [if_pos (show ("default" : String) ≠ "" by decide)]

/-- C7 amended: only `update_client_status_by_ip` (touch-by-ip) ignores
the `"default"` room downgrade — it leaves every member's stored room
unchanged (given rooms are non-empty strings, as in every reachable
state) — while `update_client_status` (touch by socket) overwrites the
stored room of the touched member with `"default"`. -/
theorem touch_room_downgrade_amended (control : List (Nat × ClientInfo))
    (ip : String) (username? : Option String) (sock : Nat)
    (hr : ∀ p ∈ control, p.2.room ≠ "") :
    (update_client_status_by_ip control ip username? (some "default")).map
        (fun p => (p.1, p.2.room)) =
      control.map (fun p => (p.1, p.2.room)) ∧
    ∀ p ∈ update_client_status control sock username? (some "default"),
      p.1 = sock → p.2.room = "default" := by
  constructor
  · induction control with
    | nil => rfl
    | cons q rest ih =>
      unfold update_client_status_by_ip
      by_cases hq : q.2.ip = ip
      · rw [if_pos hq]
        simp only [List.map_cons]
        rw [updInfoByIp_default_room q.2 username?
          (hr q (List.mem_cons_self q rest))]
      · rw [if_neg hq]
        simp only [List.map_cons]
        rw [ih (fun p hp => hr p (List.mem_cons_of_mem q hp))]
  · intro p hp hps
    unfold update_client_status at hp
    obtain ⟨q, _, hq⟩ := List.mem_map.mp hp
    by_cases hqs : q.1 = sock
    · rw [if_pos hqs] at hq
      rw [← hq]
      exact updInfo_default_room q.2 username?
    · rw [if_neg hqs] at hq
      rw [← hq] at hps
      exact absurd hps hqs

/-- Witness for C7 amended: a member in room `"team"` touched by IP with
`room="default"` keeps its room. -/
theorem touch_room_downgrade_amended_witness :
    (update_client_status_by_ip
        [(1, (⟨"10.0.0.1", 5, "Alice", "team"⟩ : ClientInfo))]
        "10.0.0.1" none (some "default")).map (fun p => (p.1, p.2.room)) =
      ([(1, (⟨"10.0.0.1", 5, "Alice", "team"⟩ : ClientInfo))] :
          List (Nat × ClientInfo)).map (fun p => (p.1, p.2.room)) :=
  (touch_room_downgrade_amended
    [(1, (⟨"10.0.0.1", 5, "Alice", "team"⟩ : ClientInfo))]
    "10.0.0.1" none 1 (by decide)).1

/-- Dict update then lookup on the same key yields the new value. -/
theorem assocGet_assocSet {α β : Type} [DecidableEq α]
    (l : List (α × β)) (k : α) (v : β) :
    assocGet (assocSet l k v) k = some v := by
  induction l with
  | nil => simp [assocSet, assocGet]
  | cons p rest ih =>
    by_cases hp : p.1 = k
    · unfold assocSet
      rw [if_pos (by simp [List.any_cons, hp])]
      unfold assocGet
      simp [List.find?_cons, hp]
    · have hstep : assocSet (p :: rest) k v = p :: assocSet rest k v := by
        unfold assocSet
        by_cases h : rest.any (fun q => q.1 = k)
        · rw [if_pos (by simp [List.any_cons, h]), if_pos h]
          simp [List.map_cons, hp]
        · rw [if_neg (by simp [List.any_cons, hp, h]), if_neg h]
          simp
      rw [hstep]
      unfold assocGet
      rw [List.find?_cons_of_neg _ (by simp [hp])]
      exact ih

/-- Dict update inserts the exact pair just bound. -/
theorem assocSet_mem_self {α β : Type} [DecidableEq α]
    (l : List (α × β)) (k : α) (v : β) :
    (k, v) ∈ assocSet l k v := by
  unfold assocSet
  by_cases h : l.any (fun p => p.1 = k)
  · rw [if_pos h]
    obtain ⟨p, hp, hpk⟩ := List.any_eq_true.mp h
    simp only [decide_eq_true_eq] at hpk
    exact List.mem_map.mpr ⟨p, hp, by rw [if_pos hpk]⟩
  · rw [if_neg h]
    exact List.mem_append_right _ (List.mem_singleton.mpr rfl)

/-- C6 counterexample: registering `"Alice"` and then `"alice"` into
room `"team"` yields a reachable state whose room holds two distinct
participants with case-insensitively equal usernames — the
case-insensitive uniqueness invariant fails. -/
theorem register_ci_uniqueness_counterexample :
    (assocGet twoCaseVariantState.rooms "team" =
      some ⟨[1, 2], [("Alice", 1), ("alice", 2)]⟩) ∧
    ¬ ciUnique ⟨[1, 2], [("Alice", 1), ("alice", 2)]⟩ := by
  constructor
  · decide
  · decide

/-- C6 amended: registration preserves the originally asserted casing
and never rejects — the asserted `(username, socket)` pair is always
inserted as-is — but rooms do not enforce case-insensitive username
uniqueness: registering `"Alice"` then `"alice"` into the same room
yields two distinct participants (case folding happens only at chat
lookup time). -/
theorem register_preserves_casing_amended :
    (∀ (st : ServerRooms) (meeting username : String) (sock : Nat),
      ∃ r, assocGet (registerInRooms st meeting username sock).rooms
          meeting = some r ∧
        (username, sock) ∈ r.participants) ∧
    ∃ r, assocGet twoCaseVariantState.rooms "team" = some r ∧
      ("Alice", 1) ∈ r.participants ∧ ("alice", 2) ∈ r.participants ∧
      ¬ ciUnique r := by
  constructor
  · intro st meeting username sock
    unfold registerInRooms
    exact ⟨_, assocGet_assocSet _ _ _, assocSet_mem_self _ _ _⟩
  · exact ⟨⟨[1, 2], [("Alice", 1), ("alice", 2)]⟩, by decide, by decide,
      by decide, by decide⟩

/-- C4: a CHAT whose target is absent, empty, or case-folds to `all` or
`everyone` is sent to exactly the sockets of the sender's room other
than the sender's own socket. -/
theorem chat_broadcast_targets (room : Room) (senderSock : Nat)
    (target : Option String) (sendOk : Nat → Bool)
    (h : target = none ∨ target = some "" ∨
      ∃ s, target = some s ∧ (pyLower s = "all" ∨ pyLower s = "everyone")) :
    ∀ x, x ∈ (handleChat room senderSock target sendOk).targets ↔
      (x ∈ room.clients ∧ x ≠ senderSock) := by
  have hneg : ¬ (target.getD "all" ≠ "" ∧
      pyLower (target.getD "all") ≠ "all" ∧
      pyLower (target.getD "all") ≠ "everyone") := by
    rcases h with h | h | ⟨s, hs, hl | hl⟩
    · subst h
      exact fun hc => hc.2.1 (by decide)
    · subst h
      exact fun hc => hc.1 rfl
    · subst hs
      exact fun hc => hc.2.1 hl
    · subst hs
      exact fun hc => hc.2.2 hl
  intro x
  unfold handleChat
  rw [if_neg hneg]
  simp [List.mem_filter]

/-- Witness for C4: in a room with clients 1, 2, 3, the broadcast from
socket 1 with no target reaches socket 2. -/
theorem chat_broadcast_targets_witness :
    2 ∈ (handleChat ⟨[1, 2, 3], [("Alice", 1)]⟩ 1 none
        (fun _ => true)).targets ↔ (2 ∈ [1, 2, 3] ∧ 2 ≠ 1) :=
  chat_broadcast_targets ⟨[1, 2, 3], [("Alice", 1)]⟩ 1 none (fun _ => true)
    (Or.inl rfl) 2

/-- C5 counterexample: on an unknown-target miss the sender gets only
an `error`-typed packet — no `delivery_confirm` packet is produced, so
the claim's "regardless of outcome" fails. -/
theorem chat_miss_no_confirm_counterexample :
    (handleChat ⟨[1, 2], [("Alice", 1), ("Bob", 2)]⟩ 1 (some "nobody")
        (fun _ => true)).senderPackets = [⟨"error", 0, 0⟩] ∧
    ∀ p ∈ (handleChat ⟨[1, 2], [("Alice", 1), ("Bob", 2)]⟩ 1
        (some "nobody") (fun _ => true)).senderPackets,
      p.ptype ≠ "delivery_confirm" := by
  constructor
  · decide
  · decide

/-- Field values of the confirmation packet built by
`_send_to_targets`. -/
theorem sendToTargets_spec (targets : List Nat) (sendOk : Nat → Bool) :
    (sendToTargets targets sendOk).sent = targets.countP sendOk ∧
    (sendToTargets targets sendOk).failed =
      targets.length - targets.countP sendOk ∧
    (sendToTargets targets sendOk).ptype =
      (if targets.countP sendOk > 0 ∨
          targets.length - targets.countP sendOk = 0 then "delivery_confirm"
        else "error") := by
  by_cases hc : targets.countP sendOk > 0 ∨
      targets.length - targets.countP sendOk = 0
  · have h : sendToTargets targets sendOk =
        ⟨"delivery_confirm", targets.countP sendOk,
          targets.length - targets.countP sendOk⟩ := by
      unfold sendToTargets
      exact if_pos hc
    rw [h, if_pos hc]
    exact ⟨rfl, rfl, rfl⟩
  · have h : sendToTargets targets sendOk =
        ⟨"error", targets.countP sendOk,
          targets.length - targets.countP sendOk⟩ := by
      unfold sendToTargets
      exact if_neg hc
    rw [h, if_neg hc]
    exact ⟨rfl, rfl, rfl⟩

/-- C5 amended: the sender receives a summarizing confirmation only on
broadcast or unicast-hit outcomes — one packet whose counts cover the
attempted targets, typed `delivery_confirm` when at least one send
succeeded or none failed and `error`-typed otherwise; on an
unknown-target miss the sender receives only an `error`-typed packet
and no `delivery_confirm`. -/
theorem chat_confirm_amended (room : Room) (senderSock : Nat)
    (target : Option String) (sendOk : Nat → Bool) :
    (chatMiss room target →
      (handleChat room senderSock target sendOk).targets = [] ∧
      ∀ p ∈ (handleChat room senderSock target sendOk).senderPackets,
        p.ptype = "error") ∧
    (¬ chatMiss room target →
      ∃ p, (handleChat room senderSock target sendOk).senderPackets = [p] ∧
        p.sent =
          (handleChat room senderSock target sendOk).targets.countP sendOk ∧
        p.failed =
          (handleChat room senderSock target sendOk).targets.length - p.sent ∧
        p.ptype = (if p.sent > 0 ∨ p.failed = 0 then "delivery_confirm"
          else "error")) := by
  by_cases hcond : target.getD "all" ≠ "" ∧
      pyLower (target.getD "all") ≠ "all" ∧
      pyLower (target.getD "all") ≠ "everyone"
  · cases hlook : ciLookup room.participants (pyLower (pyStrip (target.getD "all"))) with
    | some pr =>
      obtain ⟨n, tsock⟩ := pr
      have hred : handleChat room senderSock target sendOk =
          ⟨[tsock], [sendToTargets [tsock] sendOk]⟩ := by
        unfold handleChat
        rw [if_pos hcond, hlook]
      constructor
      · intro hmiss
        rw [hmiss.2.2.2] at hlook
        exact absurd hlook (by simp)
      · intro _
        rw [hred]
        obtain ⟨h1, h2, h3⟩ := sendToTargets_spec [tsock] sendOk
        exact ⟨sendToTargets [tsock] sendOk, rfl, h1, by rw [h2, h1],
          by rw [h3, h1, h2]⟩
    | none =>
      have hred : handleChat room senderSock target sendOk =
          ⟨[], [⟨"error", 0, 0⟩]⟩ := by
        unfold handleChat
        rw [if_pos hcond, hlook]
      constructor
      · intro _
        rw [hred]
        exact ⟨rfl, by simp⟩
      · intro hnmiss
        exact absurd ⟨hcond.1, hcond.2.1, hcond.2.2, hlook⟩ hnmiss
  · have hred : handleChat room senderSock target sendOk =
        ⟨room.clients.filter (fun s => s ≠ senderSock),
          [sendToTargets (room.clients.filter (fun s => s ≠ senderSock))
            sendOk]⟩ := by
      unfold handleChat
      rw [if_neg hcond]
    constructor
    · intro hmiss
      exact absurd ⟨hmiss.1, hmiss.2.1, hmiss.2.2.1⟩ hcond
    · intro _
      rw [hred]
      obtain ⟨h1, h2, h3⟩ :=
        sendToTargets_spec (room.clients.filter (fun s => s ≠ senderSock))
          sendOk
      exact ⟨_, rfl, h1, by rw [h2, h1], by rw [h3, h1, h2]⟩

/-- Witness for C5 amended: on a miss the target list is empty. -/
theorem chat_confirm_amended_witness :
    (handleChat ⟨[1, 2], [("Alice", 1), ("Bob", 2)]⟩ 1 (some "nobody")
        (fun _ => true)).targets = [] :=
  ((chat_confirm_amended ⟨[1, 2], [("Alice", 1), ("Bob", 2)]⟩ 1
      (some "nobody") (fun _ => true)).1 (by decide)).1

/-- Counting outputs of a `filterMap` whose produced values determine
their input: at most as many hits as inputs mapping to the key. -/
theorem countP_filterMap_le {α β : Type} [DecidableEq α]
    (f : α → Option β) (p : β → Bool) (L : α) (l : List α)
    (h : ∀ a b, f a = some b → p b = true → a = L) :
    (l.filterMap f).countP p ≤ l.count L := by
  induction l with
  | nil => simp
  | cons a rest ih =>
    cases hfa : f a with
    | none =>
      simp only [List.filterMap_cons, hfa, List.count_cons]
      generalize (if (a == L) = true then 1 else 0) = k
      omega
    | some b =>
      simp only [List.filterMap_cons, hfa]
      rw [List.countP_cons, List.count_cons]
      by_cases hp : p b = true
      · have ha : a = L := h a b hfa hp
        rw [if_pos hp, if_pos (show (a == L) = true from beq_iff_eq.mpr ha)]
        omega
      · rw [if_neg hp]
        generalize (if (a == L) = true then 1 else 0) = k
        omega

/-- The sample chunk has the canonical size `mix_audio_chunks`
accepts. -/
theorem sampleChunk_length : sampleChunk.length = bytesPerChunk := by
  unfold sampleChunk bytesPerChunk
  rw [List.length_replicate]

/-- C1 counterexample: a popped chunk from `10.0.0.1:2` is mixed into
the packet sent to the listener `10.0.0.1:1` — same IP, different port
— because the mixer excludes only the exact `(ip, port)` address, not
the IP. -/
theorem audio_mix_self_ip_counterexample :
    tickSends (fun _ => "team")
        [(⟨"10.0.0.1", 2⟩, [sampleChunk])] [⟨"10.0.0.1", 1⟩] =
      [(⟨"10.0.0.1", 1⟩, [sampleChunk])] ∧
    (⟨"10.0.0.1", 2⟩, sampleChunk) ∈
      selectedSources (fun _ => "team")
        (popChunks [(⟨"10.0.0.1", 2⟩, [sampleChunk])]) ⟨"10.0.0.1", 1⟩ ∧
    (⟨"10.0.0.1", 2⟩ : Addr).ip = (⟨"10.0.0.1", 1⟩ : Addr).ip := by
  refine ⟨?_, ?_, rfl⟩
  · unfold tickSends popChunks selectedSources mixInput
    simp [sampleChunk_length]
  · unfold selectedSources popChunks
    simp

/-- C1 amended: each registered audio listener receives at most one
mixed packet per tick (given the listener snapshot has no duplicates,
as `get_audio_listeners` produces one address per IP), and the mix for
a listener excludes every popped chunk whose full source address equals
the listener's address — exclusion is by `(ip, port)` address, not by
IP, so a chunk from the same IP on a different port is included. -/
theorem audio_mix_tick_amended (roomOf : String → String)
    (buffers : List (Addr × List Chunk)) (listeners : List Addr) (L : Addr) :
    (listeners.Nodup →
      (tickSends roomOf buffers listeners).countP (fun s => s.1 = L) ≤ 1) ∧
    ∀ p ∈ selectedSources roomOf (popChunks buffers) L, p.1 ≠ L := by
  constructor
  · intro hnd
    have hle := countP_filterMap_le
      (fun t =>
        let srcs := (selectedSources roomOf (popChunks buffers) t).map
          (fun p => p.2)
        if srcs = [] then none
        else
          let mi := mixInput srcs
          if mi = [] then none else some (t, mi))
      (fun s => s.1 = L) L listeners ?_
    · have hcount : listeners.count L ≤ 1 :=
        List.nodup_iff_count_le_one.mp hnd L
      exact le_trans hle hcount
    · intro a b hab hpb
      simp only at hab
      by_cases h1 : (selectedSources roomOf (popChunks buffers) a).map
          (fun p => p.2) = []
      · rw [if_pos h1] at hab
        exact absurd hab (by simp)
      · rw [if_neg h1] at hab
        by_cases h2 : mixInput ((selectedSources roomOf
            (popChunks buffers) a).map (fun p => p.2)) = []
        · rw [if_pos h2] at hab
          exact absurd hab (by simp)
        · rw [if_neg h2] at hab
          have := Option.some.inj hab
          rw [← this] at hpb
          simpa using hpb
  · intro p hp
    have := (List.mem_filter.mp hp).2
    simp only [decide_eq_true_eq, Bool.and_eq_true, decide_not,
      Bool.not_eq_true', decide_eq_false_iff_not] at this
    exact this.1

/-- Witness for C1 amended on a singleton listener list. -/
theorem audio_mix_tick_amended_witness :
    (tickSends (fun _ => "team")
        [(⟨"10.0.0.1", 2⟩, [sampleChunk])] [⟨"10.0.0.1", 1⟩]).countP
      (fun s => s.1 = ⟨"10.0.0.1", 1⟩) ≤ 1 :=
  (audio_mix_tick_amended (fun _ => "team")
    [(⟨"10.0.0.1", 2⟩, [sampleChunk])] [⟨"10.0.0.1", 1⟩]
    ⟨"10.0.0.1", 1⟩).1 (by decide)

/-- C3: a completed upload (received bytes match the declared size)
with a non-empty declared checksum is acked `FILE_ACK_SUCCESS` iff the
MD5 of the bytes written to disk equals the declared checksum; on a
mismatch the stored file is deleted, the ack is `FILE_ACK_FAILURE`, and
no `file_announce` notification is emitted. -/
theorem upload_checksum_spec (md5 : List Nat → String) (filesize : Nat)
    (data : List Nat) (declared : String)
    (hc : declared ≠ "") (hs : data.length = filesize) :
    ((finishUpload md5 filesize data declared).ackSuccess = true ↔
      md5 data = declared) ∧
    (md5 data ≠ declared →
      (finishUpload md5 filesize data declared).ackSuccess = false ∧
      (finishUpload md5 filesize data declared).fileKept = false ∧
      (finishUpload md5 filesize data declared).announced = false) := by
  unfold finishUpload
  rw [if_neg (by rw [hs]; exact fun h => h rfl), if_pos hc]
  by_cases hm : md5 data = declared
  · rw [if_neg (fun h => h hm)]
    exact ⟨⟨fun _ => hm, fun _ => rfl⟩, fun h => absurd hm h⟩
  · rw [if_pos hm]
    exact ⟨⟨fun h => absurd h (by decide), fun h => absurd h hm⟩,
      fun _ => ⟨rfl, rfl, rfl⟩⟩

/-- Witness for C3: a matching checksum is acked success. -/
theorem upload_checksum_spec_witness :
    (finishUpload (fun _ => "abc") 1 [7] "abc").ackSuccess = true ↔
      (fun _ : List Nat => "abc") [7] = "abc" :=
  (upload_checksum_spec (fun _ => "abc") 1 [7] "abc" (by decide) rfl).1

/-- C2: the traversal guard of the file server accepts the filename
`../storage2/evil` against the storage root `/srv/storage` — the
resolved path `/srv/storage2/evil` lies outside the storage root, yet
the string-prefix check `startswith` passes because the sibling
directory's name extends the root's name, so the upload proceeds to
open and write the file there.  This refutes the claim that every
request resolving outside the root is refused without filesystem
activity. -/
theorem traversal_guard_prefix_bug :
    traversalGuardPasses ["srv", "storage"] ["..", "storage2", "evil"] =
      true ∧
    resolvePath ["srv", "storage"] ["..", "storage2", "evil"] =
      ["srv", "storage2", "evil"] ∧
    ¬ underRoot ["srv", "storage"] ["..", "storage2", "evil"] := by
  refine ⟨by decide, by decide, ?_⟩
  intro h
  obtain ⟨t, ht⟩ := h
  rw [show resolvePath ["srv", "storage"] ["..", "storage2", "evil"] =
    ["srv", "storage2", "evil"] by decide] at ht
  simp at ht

end Sapora
